import Mathlib

/-!
Verification of the filtering-and-aggregation core of the machine-stamping
dashboard (`main.py`).  The pandas DataFrames are shallowly embedded as lists
of rows over a small cell-value type; timestamps are six-field civil records
ordered lexicographically (the chronological order); missing values (NaN/NaT)
are an explicit `null` cell; floating-point numbers are modelled by `ℚ`,
with a NaN result of a mean modelled by `Option.none`.
-/

/-- Civil timestamp, as produced by `pd.to_datetime` (second resolution). -/
structure Timestamp where
  year : Nat
  month : Nat
  day : Nat
  hour : Nat
  minute : Nat
  second : Nat
deriving DecidableEq, Repr

/-- Lexicographic key of a timestamp: chronological order of civil timestamps
is exactly lexicographic order on (year, month, day, hour, minute, second). -/
def Timestamp.key (t : Timestamp) : ℕ ×ₗ (ℕ ×ₗ (ℕ ×ₗ (ℕ ×ₗ (ℕ ×ₗ ℕ)))) :=
  toLex (t.year, toLex (t.month, toLex (t.day, toLex (t.hour, toLex (t.minute, t.second)))))

theorem Timestamp.key_injective : Function.Injective Timestamp.key := by
  intro a b h
  cases a
  cases b
  simp only [Timestamp.key, toLex_inj, Prod.mk.injEq] at h
  simp_all

instance : LinearOrder Timestamp := LinearOrder.lift' Timestamp.key Timestamp.key_injective

/-- Left-pad the decimal rendering of `n` with zeros to width 2. -/
def pad2 (n : Nat) : String :=
  if n < 10 then "0" ++ toString n else toString n

/-- Left-pad the decimal rendering of `n` with zeros to width 4. -/
def pad4 (n : Nat) : String :=
  if n < 10 then "000" ++ toString n
  else if n < 100 then "00" ++ toString n
  else if n < 1000 then "0" ++ toString n
  else toString n

/-- `pandas.Timestamp.isoformat()` for a second-resolution timestamp:
`YYYY-MM-DDTHH:MM:SS`. -/
def Timestamp.isoformat (t : Timestamp) : String :=
  pad4 t.year ++ "-" ++ pad2 t.month ++ "-" ++ pad2 t.day ++ "T" ++
    pad2 t.hour ++ ":" ++ pad2 t.minute ++ ":" ++ pad2 t.second

/-- `Series.dt.strftime("%Y-%m-%d %H:%M:%S")` applied to one timestamp. -/
def Timestamp.strftimeYmdHMS (t : Timestamp) : String :=
  pad4 t.year ++ "-" ++ pad2 t.month ++ "-" ++ pad2 t.day ++ " " ++
    pad2 t.hour ++ ":" ++ pad2 t.minute ++ ":" ++ pad2 t.second

/-- One cell of a DataFrame.  `null` models NaN (numeric), NaT (datetime) and
None (object) alike. -/
inductive Val
  | str (s : String)
  | num (q : ℚ)
  | time (t : Timestamp)
  | null
deriving DecidableEq, Repr

/-- The pandas dtype of a column, as far as the code discriminates dtypes
(`select_dtypes(include="number")` and the datetime normalization). -/
inductive DType
  | str
  | num
  | time
deriving DecidableEq, Repr

/-- A column header: name and dtype. -/
structure Col where
  name : String
  dtype : DType
deriving DecidableEq, Repr

/-- A pandas DataFrame: ordered column headers and rows of cells (each row
positionally aligned with `cols`). -/
structure DataFrame where
  cols : List Col
  rows : List (List Val)
deriving DecidableEq, Repr

/-- Index of a named column, `none` when absent (`"c" in df.columns` ↔ `isSome`). -/
def DataFrame.colIdx (df : DataFrame) (name : String) : Option Nat :=
  df.cols.findIdx? (fun c => c.name == name)

/-- `df.empty`: true iff some axis has length 0. -/
def DataFrame.isEmptyDF (df : DataFrame) : Bool :=
  df.rows.isEmpty || df.cols.isEmpty

/-- Cell of row `r` at column index `i` (missing position reads as null). -/
def rowCell (r : List Val) (i : Nat) : Val :=
  r.getD i Val.null

/-- `Series.isin(vals)` for one cell: membership in the list of values
(pandas matches NaN against NaN in `isin`, which `Val.null ∈ vals` mirrors). -/
def valIsin (v : Val) (vals : List Val) : Bool :=
  vals.contains v

/-- `Series.unique().tolist()`: distinct values in order of first occurrence. -/
def uniqueFirst : List Val → List Val
  | [] => []
  | a :: l => a :: ((uniqueFirst l).filter (fun x => x ≠ a))

/-- `df[df[col].isin(vals)]`: raises `KeyError` when `col` is absent,
otherwise keeps (in order) the rows whose `col`-cell is in `vals`. -/
def DataFrame.filterIsin (df : DataFrame) (col : String) (vals : List Val) :
    Except String DataFrame :=
  match df.colIdx col with
  | none => .error ("KeyError: " ++ col)
  | some i => .ok ⟨df.cols, df.rows.filter (fun r => valIsin (rowCell r i) vals)⟩

/-- Python truthiness of an `Optional[List[str]]` query parameter: `None` and
`[]` are falsy, a non-empty list is truthy. -/
def truthy (o : Option (List String)) : Bool :=
  match o with
  | none => false
  | some l => !l.isEmpty

/-- `filter_d1(d1, machine_ids, part_numbers, tool_numbers)` from `main.py`:
apply each `isin` filter in turn, skipping falsy selections. -/
def filter_d1 (d1 : DataFrame) (machine_ids part_numbers tool_numbers : Option (List String)) :
    Except String DataFrame :=
  match (if truthy machine_ids then
      d1.filterIsin "machine_id" ((machine_ids.getD []).map Val.str)
    else .ok d1) with
  | .error e => .error e
  | .ok df1 =>
    match (if truthy part_numbers then
        df1.filterIsin "part_number" ((part_numbers.getD []).map Val.str)
      else .ok df1) with
    | .error e => .error e
    | .ok df2 =>
      if truthy tool_numbers then
        df2.filterIsin "tool_number" ((tool_numbers.getD []).map Val.str)
      else .ok df2

/-- `filter_d2_by_d1(d2, d1_filtered)` from `main.py`: empty attributes subset
gives an empty frame with d2's columns; otherwise keep the d2 rows whose
`machine_id` is among the distinct `machine_id` values of `d1_filtered`. -/
def filter_d2_by_d1 (d2 d1_filtered : DataFrame) : Except String DataFrame :=
  if d1_filtered.isEmptyDF then .ok ⟨d2.cols, []⟩
  else
    match d1_filtered.colIdx "machine_id" with
    | none => .error ("KeyError: " ++ "machine_id")
    | some i =>
      let machines := uniqueFirst (d1_filtered.rows.map (fun r => rowCell r i))
      d2.filterIsin "machine_id" machines

/-- `df.select_dtypes(include="number").columns.tolist()`: names of numeric
columns, in column order. -/
def numericCols (df : DataFrame) : List String :=
  (df.cols.filter (fun c => c.dtype == DType.num)).map (fun c => c.name)

/-- Target-column choice of `build_avg_time_series`: the column named `value`
when numeric, else the first numeric column, else none. -/
def targetCol (df : DataFrame) : Option String :=
  let nc := numericCols df
  if nc.contains "value" then some "value"
  else nc.head?

/-- Read a cell of a datetime column: a concrete timestamp or none (NaT). -/
def cellTime (v : Val) : Option Timestamp :=
  match v with
  | .time t => some t
  | _ => none

/-- Read a cell of a numeric column: a concrete number or none (NaN). -/
def cellNum (v : Val) : Option ℚ :=
  match v with
  | .num q => some q
  | _ => none

/-- Key/value pairs fed to `df.groupby("timestamp")[target_col]`: one pair per
row with a non-null timestamp (groupby drops null keys), carrying the row's
target cell (possibly null). -/
def keyedVals (df : DataFrame) (ti vi : Nat) : List (Timestamp × Option ℚ) :=
  df.rows.filterMap (fun r => (cellTime (rowCell r ti)).map (fun t => (t, cellNum (rowCell r vi))))

/-- Non-null target values of the group with key `t`. -/
def groupVals (ps : List (Timestamp × Option ℚ)) (t : Timestamp) : List ℚ :=
  (ps.filter (fun p => p.1 = t)).filterMap (fun p => p.2)

/-- `SeriesGroupBy.mean()` for the group with key `t`: the arithmetic mean of
the group's non-null values, or none (NaN) when every value is null. -/
def groupMean (ps : List (Timestamp × Option ℚ)) (t : Timestamp) : Option ℚ :=
  let vs := groupVals ps t
  if vs.isEmpty then none else some (vs.sum / vs.length)

/-- The group keys produced by `groupby("timestamp")` followed by
`sort_values("timestamp")`: distinct non-null timestamps, ascending. -/
def groupKeysSorted (ps : List (Timestamp × Option ℚ)) : List Timestamp :=
  List.insertionSort (fun a b => a ≤ b) ((ps.map (fun p => p.1)).dedup)

/-- `build_avg_time_series(df)` from `main.py`.  Each output pair models one
`{"timestamp": ts.isoformat(), "avg": float(val)}` dict; an `avg` of `none`
models the NaN produced by a group whose every target value is null. -/
def build_avg_time_series (df : DataFrame) : List (String × Option ℚ) :=
  if df.isEmptyDF then []
  else
    match df.colIdx "timestamp" with
    | none => []
    | some ti =>
      match targetCol df with
      | none => []
      | some tc =>
        match df.colIdx tc with
        | none => []
        | some vi =>
          let ps := keyedVals df ti vi
          (groupKeysSorted ps).map (fun t => (t.isoformat, groupMean ps t))

/-- The in-memory dataset store: the three tables loaded once at startup. -/
structure Store where
  D1 : DataFrame
  D2 : DataFrame
  D3 : DataFrame
deriving DecidableEq, Repr

/-- `TABLE_ROW_LIMIT` from `main.py`. -/
def TABLE_ROW_LIMIT : Nat := 400

/-- `rows["timestamp"] = rows["timestamp"].dt.strftime("%Y-%m-%d %H:%M:%S")`,
guarded by `"timestamp" in rows.columns`: render each timestamp cell as a
fixed-format string (a null cell — NaT — renders to NaN, i.e. stays null). -/
def formatTimestampCol (df : DataFrame) : DataFrame :=
  match df.colIdx "timestamp" with
  | none => df
  | some i =>
    ⟨df.cols,
     df.rows.map (fun r =>
       r.mapIdx (fun j v =>
         if j = i then
           match v with
           | .time t => .str t.strftimeYmdHMS
           | _ => .null
         else v))⟩

/-- `df.to_dict(orient="records")`: one name-to-value record per row. -/
def toRecords (df : DataFrame) : List (List (String × Val)) :=
  df.rows.map (fun r => (df.cols.map (fun c => c.name)).zip r)

/-- The row part of the response: `d2_filtered.head(limit)` copied, timestamps
reformatted, then converted to records. -/
def assembleRows (d2f : DataFrame) (limit : Nat) : List (List (String × Val)) :=
  toRecords (formatTimestampCol ⟨d2f.cols, d2f.rows.take limit⟩)

/-- The JSON payload of `/api/data`. -/
structure GetDataResult where
  rows : List (List (String × Val))
  average : List (String × Option ℚ)
deriving DecidableEq, Repr

/-- `get_data(machine_id, part_number, tool_number)` from `main.py`, with the
module-level store passed explicitly and returned alongside the response to
make the handler's effect on it visible.  `not any([...])` short-circuits when
every selection is falsy (absent or empty). -/
def get_data (store : Store) (machine_id part_number tool_number : Option (List String)) :
    Except String GetDataResult × Store :=
  if !(truthy machine_id || truthy part_number || truthy tool_number) then
    (.ok ⟨[], []⟩, store)
  else
    match filter_d1 store.D1 machine_id part_number tool_number with
    | .error e => (.error e, store)
    | .ok d1_filtered =>
      match filter_d2_by_d1 store.D2 d1_filtered with
      | .error e => (.error e, store)
      | .ok d2_filtered =>
        let rows_out := assembleRows d2_filtered TABLE_ROW_LIMIT
        let avg_series := build_avg_time_series d2_filtered
        (.ok ⟨rows_out, avg_series⟩, store)

/-! ### Helper lemmas about the embedded operations -/

theorem colIdx_rebuild (df : DataFrame) (rs : List (List Val)) (n : String) :
    (DataFrame.mk df.cols rs).colIdx n = df.colIdx n := rfl

theorem mem_uniqueFirst (x : Val) : ∀ l : List Val, x ∈ uniqueFirst l ↔ x ∈ l := by
  intro l
  induction l with
  | nil => simp [uniqueFirst]
  | cons a l ih =>
    rw [uniqueFirst]
    by_cases hx : x = a
    · simp [hx]
    · simp only [List.mem_cons, hx, false_or, List.mem_filter]
      rw [ih]
      simp [hx]

theorem valIsin_uniqueFirst (v : Val) (l : List Val) :
    valIsin v (uniqueFirst l) = valIsin v l := by
  simp only [valIsin, List.contains, List.elem_eq_mem, decide_eq_decide]
  exact mem_uniqueFirst v l

theorem sorted_groupKeysSorted (ps : List (Timestamp × Option ℚ)) :
    List.Sorted (fun a b : Timestamp => a < b) (groupKeysSorted ps) := by
  have hle : List.Sorted (fun a b : Timestamp => a ≤ b) (groupKeysSorted ps) :=
    List.sorted_insertionSort _ _
  have hnd : (groupKeysSorted ps).Nodup :=
    (List.perm_insertionSort _ _).nodup_iff.mpr (List.nodup_dedup _)
  exact List.Sorted.lt_of_le hle hnd

theorem mem_groupKeysSorted (ps : List (Timestamp × Option ℚ)) (t : Timestamp) :
    t ∈ groupKeysSorted ps ↔ t ∈ ps.map (fun p => p.1) := by
  simp [groupKeysSorted, List.mem_dedup]

theorem get_data_store_frame (s : Store) (a b c : Option (List String)) :
    (get_data s a b c).2 = s := by
  unfold get_data
  split
  · rfl
  · split
    · rfl
    · split
      · rfl
      · rfl

/-! ### Concrete tables used to instantiate the theorems -/

/-- Timestamp 2024-01-01 00:00:00 (the `T1` of spec Scenario A). -/
def tsA1 : Timestamp := ⟨2024, 1, 1, 0, 0, 0⟩

/-- Timestamp 2024-01-01 00:05:00 (the `T2` of spec Scenario A). -/
def tsA2 : Timestamp := ⟨2024, 1, 1, 0, 5, 0⟩

/-- A small attributes table (d1). -/
def dfAttr : DataFrame :=
  ⟨[⟨"machine_id", .str⟩, ⟨"part_number", .str⟩, ⟨"tool_number", .str⟩],
   [[.str "M1", .str "P1", .str "T1"],
    [.str "M2", .str "P1", .str "T2"]]⟩

/-- A measurements table (d2) realizing spec Scenario A: three rows for `M1`
at timestamps T1, T1, T2 with `value` 10, 20, 30. -/
def dfMeas : DataFrame :=
  ⟨[⟨"machine_id", .str⟩, ⟨"timestamp", .time⟩, ⟨"value", .num⟩],
   [[.str "M1", .time tsA1, .num 10],
    [.str "M1", .time tsA1, .num 20],
    [.str "M1", .time tsA2, .num 30]]⟩

/-- A measurements subset with no `value` column but a numeric `pressure`
column (spec Scenario D). -/
def dfPressure : DataFrame :=
  ⟨[⟨"machine_id", .str⟩, ⟨"timestamp", .time⟩, ⟨"pressure", .num⟩],
   [[.str "M1", .time tsA1, .num 7]]⟩

/-- A measurements subset with no numeric column at all. -/
def dfNoNum : DataFrame :=
  ⟨[⟨"machine_id", .str⟩, ⟨"timestamp", .time⟩],
   [[.str "M1", .time tsA1]]⟩

/-- A measurements table with a timestamp column and no rows. -/
def dfMeasEmpty : DataFrame :=
  ⟨[⟨"machine_id", .str⟩, ⟨"timestamp", .time⟩, ⟨"value", .num⟩], []⟩

/-- A store holding the Scenario A tables. -/
def storeA : Store := ⟨dfAttr, dfMeas, dfAttr⟩

/-! ### Claim theorems -/

/-- C7: for every measurements subset that is empty or lacks a timestamp
column, `build_avg_time_series` returns an empty sequence (it is a total
function into lists, so no exception is possible on this path). -/
theorem averageOverTime_empty_input (df : DataFrame)
    (h : df.rows = [] ∨ df.colIdx "timestamp" = none) :
    build_avg_time_series df = [] := by
  unfold build_avg_time_series
  rcases h with h | h
  · simp [DataFrame.isEmptyDF, h]
  · by_cases hE : df.isEmptyDF <;> simp [hE, h]

/-- C7 witness: the empty measurements table and a table lacking a timestamp
column both yield an empty series. -/
theorem averageOverTime_empty_input_witness :
    build_avg_time_series dfMeasEmpty = [] ∧ build_avg_time_series dfAttr = [] :=
  ⟨averageOverTime_empty_input dfMeasEmpty (Or.inl rfl),
   averageOverTime_empty_input dfAttr (Or.inr rfl)⟩

/-- C4: the target column of `build_avg_time_series` is the numeric column
named `value` when present, otherwise the first numeric column in column
order, and when no numeric column exists the result is the empty sequence. -/
theorem targetColumn_policy (df : DataFrame) :
    ("value" ∈ numericCols df → targetCol df = some "value") ∧
    ("value" ∉ numericCols df → targetCol df = (numericCols df).head?) ∧
    (numericCols df = [] → build_avg_time_series df = []) := by
  refine ⟨fun h => ?_, fun h => ?_, fun h => ?_⟩
  · simp [targetCol, List.contains, List.elem_eq_mem, h]
  · simp [targetCol, List.contains, List.elem_eq_mem, h]
  · have ht : targetCol df = none := by simp [targetCol, h]
    unfold build_avg_time_series
    by_cases hE : df.isEmptyDF <;> cases hc : df.colIdx "timestamp" <;> simp [hE, hc, ht]

/-- C4 witness: Scenario D — a subset with no `value` column but a numeric
`pressure` column aggregates over `pressure`; a subset with no numeric column
yields an empty sequence. -/
theorem targetColumn_policy_witness :
    targetCol dfPressure = some "pressure" ∧ build_avg_time_series dfNoNum = [] := by
  constructor
  · have h := (targetColumn_policy dfPressure).2.1 (by decide)
    rw [h]
    decide
  · exact (targetColumn_policy dfNoNum).2.2 (by decide)

/-- C6: when none of the three selection parameters is truthy (each absent or
an empty list), `/api/data` returns empty rows and an empty average series,
and the response does not depend on the dataset store at all (no scan). -/
theorem get_data_no_selection_shortCircuit (store : Store)
    (m p t : Option (List String))
    (hm : truthy m = false) (hp : truthy p = false) (ht : truthy t = false) :
    get_data store m p t = (Except.ok ⟨[], []⟩, store) ∧
      ∀ store2 : Store, (get_data store2 m p t).1 = (get_data store m p t).1 := by
  constructor
  · simp [get_data, hm, hp, ht]
  · intro store2
    simp [get_data, hm, hp, ht]

/-- C6 witness: a request with all three parameters absent short-circuits on
the Scenario A store. -/
theorem get_data_no_selection_shortCircuit_witness :
    get_data storeA none none none = (Except.ok ⟨[], []⟩, storeA) :=
  (get_data_no_selection_shortCircuit storeA none none none rfl rfl rfl).1

/-- C10: supplying all three selection parameters as empty lists triggers the
same short-circuit as omitting them: empty rows and average, not the full
dataset. -/
theorem get_data_empty_lists_shortCircuit (store : Store) :
    get_data store (some []) (some []) (some []) = (Except.ok ⟨[], []⟩, store) ∧
    get_data store (some []) (some []) (some []) = get_data store none none none := by
  constructor <;> simp [get_data, truthy]

/-- C9: the request pipeline is a pure function of (store, selection): the
store component is returned unchanged by every request, and a request
computed after any other request yields exactly the same response and store
as if run first. -/
theorem core_operations_pure (store : Store)
    (m p t m2 p2 t2 : Option (List String)) :
    (get_data store m p t).2 = store ∧
    get_data ((get_data store m2 p2 t2).2) m p t = get_data store m p t := by
  refine ⟨get_data_store_frame store m p t, ?_⟩
  rw [get_data_store_frame store m2 p2 t2]

/-- C2: `filter_d1` succeeds on a table with the three categorical columns and
returns exactly the rows passing the conjunction of the per-column membership
constraints, in one order-preserving pass over the source rows; a falsy
(absent or empty) selection contributes a vacuously true conjunct. -/
theorem filterAttributes_spec (d1 : DataFrame) (m p t : Option (List String))
    (mi pi ti : Nat)
    (hm : d1.colIdx "machine_id" = some mi)
    (hp : d1.colIdx "part_number" = some pi)
    (ht : d1.colIdx "tool_number" = some ti) :
    filter_d1 d1 m p t =
      Except.ok ⟨d1.cols, d1.rows.filter (fun r =>
        (!truthy m || valIsin (rowCell r mi) ((m.getD []).map Val.str)) &&
        ((!truthy p || valIsin (rowCell r pi) ((p.getD []).map Val.str)) &&
         (!truthy t || valIsin (rowCell r ti) ((t.getD []).map Val.str))))⟩ ∧
    ∀ df', filter_d1 d1 m p t = Except.ok df' → df'.rows.Sublist d1.rows := by
  have key : filter_d1 d1 m p t =
      Except.ok ⟨d1.cols, d1.rows.filter (fun r =>
        (!truthy m || valIsin (rowCell r mi) ((m.getD []).map Val.str)) &&
        ((!truthy p || valIsin (rowCell r pi) ((p.getD []).map Val.str)) &&
         (!truthy t || valIsin (rowCell r ti) ((t.getD []).map Val.str))))⟩ := by
    cases hmb : truthy m <;> cases hpb : truthy p <;> cases htb : truthy t <;>
      simp [filter_d1, hmb, hpb, htb, DataFrame.filterIsin, colIdx_rebuild, hm, hp, ht,
        List.filter_filter, Bool.and_comm, Bool.and_left_comm, Bool.and_assoc]
  refine ⟨key, fun df' hdf => ?_⟩
  rw [key] at hdf
  cases hdf
  exact List.filter_sublist _

/-- C2 witness: on the Scenario A attributes table, selecting
`part_number = P1` and `tool_number = T2` (AND semantics, no machine
constraint) keeps exactly the second row. -/
theorem filterAttributes_spec_witness :
    filter_d1 dfAttr none (some ["P1"]) (some ["T2"]) =
      Except.ok ⟨dfAttr.cols, [[.str "M2", .str "P1", .str "T2"]]⟩ := by
  have h := (filterAttributes_spec dfAttr none (some ["P1"]) (some ["T2"])
    0 1 2 rfl rfl rfl).1
  rw [h]
  simp only [Except.ok.injEq]
  decide

/-- C3: `filter_d2_by_d1` on an empty attributes subset returns (without
error) an empty table carrying exactly the measurement columns; on a
non-empty subset it returns exactly the measurement rows whose `machine_id`
occurs among the attribute subset's `machine_id` values, again keeping only
the measurement columns (a semi-join). -/
theorem deriveMeasurementsSubset_spec (d2 d1f : DataFrame) :
    (d1f.isEmptyDF = true → filter_d2_by_d1 d2 d1f = Except.ok ⟨d2.cols, []⟩) ∧
    (∀ i j, d1f.isEmptyDF = false → d1f.colIdx "machine_id" = some i →
      d2.colIdx "machine_id" = some j →
      filter_d2_by_d1 d2 d1f = Except.ok ⟨d2.cols,
        d2.rows.filter (fun r =>
          valIsin (rowCell r j) (d1f.rows.map (fun r1 => rowCell r1 i)))⟩) := by
  constructor
  · intro h
    simp [filter_d2_by_d1, h]
  · intro i j hne hi hj
    simp only [filter_d2_by_d1, hne, Bool.false_eq_true, if_false, hi,
      DataFrame.filterIsin, hj]
    refine congrArg Except.ok (congrArg (DataFrame.mk d2.cols) ?_)
    refine List.filter_congr (fun r _ => ?_)
    rw [valIsin_uniqueFirst]

/-- C3 witness: the empty attributes subset yields an empty measurements
table with the measurement columns, and the subset containing only machine
`M1` selects exactly the three `M1` measurement rows. -/
theorem deriveMeasurementsSubset_spec_witness :
    filter_d2_by_d1 dfMeas (DataFrame.mk dfAttr.cols []) =
      Except.ok ⟨dfMeas.cols, []⟩ ∧
    filter_d2_by_d1 dfMeas ⟨dfAttr.cols, [[.str "M1", .str "P1", .str "T1"]]⟩ =
      Except.ok ⟨dfMeas.cols, dfMeas.rows⟩ := by
  constructor
  · exact (deriveMeasurementsSubset_spec dfMeas (DataFrame.mk dfAttr.cols [])).1 rfl
  · have h := (deriveMeasurementsSubset_spec dfMeas
      ⟨dfAttr.cols, [[.str "M1", .str "P1", .str "T1"]]⟩).2 0 0 rfl rfl rfl
    rw [h]
    simp only [Except.ok.injEq]
    decide

theorem groupVals_filterMap (rows : List (List Val)) (ti vi : Nat) (t : Timestamp) :
    groupVals (rows.filterMap (fun r =>
        (cellTime (rowCell r ti)).map (fun s => (s, cellNum (rowCell r vi))))) t =
      rows.filterMap (fun r =>
        if rowCell r ti = Val.time t then cellNum (rowCell r vi) else none) := by
  induction rows with
  | nil => rfl
  | cons r rs ih =>
    rw [List.filterMap_cons, List.filterMap_cons]
    cases hc : rowCell r ti with
    | str s => simpa [cellTime, hc] using ih
    | num q => simpa [cellTime, hc] using ih
    | null => simpa [cellTime, hc] using ih
    | time s =>
      by_cases hst : s = t
      · subst hst
        cases hx : cellNum (rowCell r vi) <;>
          simp [cellTime, hc, groupVals, List.filter_cons, List.filterMap_cons, hx] <;>
          simpa [groupVals] using ih
      · simp [cellTime, hc, groupVals, List.filter_cons, hst]
        simpa [groupVals] using ih

theorem groupVals_keyedVals (df : DataFrame) (ti vi : Nat) (t : Timestamp) :
    groupVals (keyedVals df ti vi) t =
      df.rows.filterMap (fun r =>
        if rowCell r ti = Val.time t then cellNum (rowCell r vi) else none) :=
  groupVals_filterMap df.rows ti vi t

/-- C1: with a timestamp column and a usable numeric target column, the
average series is exactly one point per distinct timestamp of the subset —
the sorted distinct keys, each rendered with `isoformat` and paired with the
mean of its group — and the key sequence is sorted strictly ascending (hence
duplicate-free), covering precisely the timestamps present in the rows. -/
theorem averageOverTime_spec (df : DataFrame) (ti : Nat) (tc : String) (vi : Nat)
    (hti : df.colIdx "timestamp" = some ti)
    (htc : targetCol df = some tc)
    (hvi : df.colIdx tc = some vi) :
    build_avg_time_series df =
      (groupKeysSorted (keyedVals df ti vi)).map
        (fun t => (t.isoformat, groupMean (keyedVals df ti vi) t)) ∧
    List.Sorted (fun a b : Timestamp => a < b) (groupKeysSorted (keyedVals df ti vi)) ∧
    (∀ t : Timestamp, t ∈ groupKeysSorted (keyedVals df ti vi) ↔
      t ∈ (keyedVals df ti vi).map (fun p => p.1)) := by
  refine ⟨?_, sorted_groupKeysSorted _, fun t => mem_groupKeysSorted _ t⟩
  unfold build_avg_time_series
  by_cases hE : df.isEmptyDF = true
  · have hcols : df.cols.isEmpty = false := by
      cases hcl : df.cols.isEmpty
      · rfl
      · exfalso
        rw [DataFrame.colIdx, List.isEmpty_iff.mp hcl] at hti
        simp at hti
    have hrows : df.rows = [] := by
      have h2 := hE
      rw [DataFrame.isEmptyDF, hcols, Bool.or_false] at h2
      exact List.isEmpty_iff.mp h2
    simp [hE, keyedVals, hrows, groupKeysSorted]
  · simp [hE, hti, htc, hvi]

/-- C1 witness (spec Scenario A): three rows for `M1` at T1, T1, T2 with
values 10, 20, 30 give the series [(T1, 15.0), (T2, 30.0)] with ISO-8601
timestamps. -/
theorem averageOverTime_spec_witness :
    build_avg_time_series dfMeas =
      [("2024-01-01T00:00:00", some 15), ("2024-01-01T00:05:00", some 30)] := by
  have h := (averageOverTime_spec dfMeas 1 "value" 2 rfl rfl rfl).1
  rw [h]
  simp +decide [groupKeysSorted, keyedVals, dfMeas, rowCell, cellTime, cellNum,
    List.insertionSort, List.orderedInsert, List.dedup, groupMean, groupVals,
    tsA1, tsA2, Timestamp.isoformat, pad2, pad4]
  norm_num

/-- Measurements with a null `value` cell in the T1 group. -/
def dfMeasNull : DataFrame :=
  ⟨[⟨"machine_id", .str⟩, ⟨"timestamp", .time⟩, ⟨"value", .num⟩],
   [[.str "M1", .time tsA1, .num 10],
    [.str "M1", .time tsA1, .null],
    [.str "M1", .time tsA1, .num 20]]⟩

/-- C8: the mean emitted for a timestamp group is the arithmetic mean of the
group's non-null target values — rows whose target cell is null are excluded
from both the sum and the divisor. -/
theorem averageOverTime_null_policy (df : DataFrame) (ti vi : Nat) (t : Timestamp)
    (vs : List ℚ)
    (hvs : df.rows.filterMap (fun r =>
        if rowCell r ti = Val.time t then cellNum (rowCell r vi) else none) = vs)
    (hne : vs ≠ []) :
    groupMean (keyedVals df ti vi) t = some (vs.sum / vs.length) := by
  have h := groupVals_keyedVals df ti vi t
  rw [hvs] at h
  have hfalse : vs.isEmpty = false := by
    cases vs
    · exact absurd rfl hne
    · rfl
  simp [groupMean, h, hfalse]

/-- C8 witness: in a T1 group with values 10, null, 20 the mean is 15 —
the null row is excluded from numerator and denominator alike. -/
theorem averageOverTime_null_policy_witness :
    groupMean (keyedVals dfMeasNull 1 2) tsA1 = some 15 := by
  have h := averageOverTime_null_policy dfMeasNull 1 2 tsA1 [10, 20] rfl (by decide)
  rw [h]
  norm_num

/-- C5: the response's row list is a display cap only — at most `limit` rows,
and exactly the first `limit` rows (in original order) of the untruncated
assembly — while the average series handed back by `get_data` is computed
from the full filtered subset, independent of the cap. -/
theorem assemble_rowLimit_spec (d2f : DataFrame) (limit : Nat) :
    (assembleRows d2f limit).length ≤ limit ∧
    assembleRows d2f limit = (assembleRows d2f d2f.rows.length).take limit ∧
    (∀ (store : Store) (m p t : Option (List String)) (d1f : DataFrame),
      (truthy m || truthy p || truthy t) = true →
      filter_d1 store.D1 m p t = Except.ok d1f →
      filter_d2_by_d1 store.D2 d1f = Except.ok d2f →
      (get_data store m p t).1 =
        Except.ok ⟨assembleRows d2f TABLE_ROW_LIMIT, build_avg_time_series d2f⟩) := by
  refine ⟨?_, ?_, ?_⟩
  · unfold assembleRows toRecords formatTimestampCol
    cases hc : (DataFrame.mk d2f.cols (d2f.rows.take limit)).colIdx "timestamp" <;>
      simp [List.length_take]
  · unfold assembleRows toRecords formatTimestampCol
    simp only [colIdx_rebuild, List.take_length]
    cases hc : d2f.colIdx "timestamp" <;> simp [hc]
  · intro store m p t d1f hsel h1 h2
    have hnot : (!(truthy m || truthy p || truthy t)) = false := by
      rw [hsel]; rfl
    simp [get_data, hnot, h1, h2]

/-- A five-row measurements table for spec Scenario E. -/
def dfMeas5 : DataFrame :=
  ⟨[⟨"machine_id", .str⟩, ⟨"timestamp", .time⟩, ⟨"value", .num⟩],
   [[.str "M1", .time tsA1, .num 1],
    [.str "M1", .time tsA1, .num 2],
    [.str "M1", .time tsA1, .num 3],
    [.str "M1", .time tsA2, .num 4],
    [.str "M1", .time tsA2, .num 5]]⟩

/-- C5 witness (spec Scenario E shape): with a cap of 2 on a five-row
filtered subset, the assembled rows are exactly the first two records in
original order, while `get_data`'s average series is built from all five
rows of the untruncated subset. -/
theorem assemble_rowLimit_spec_witness :
    (assembleRows dfMeas5 2).length ≤ 2 ∧
    assembleRows dfMeas5 2 = (assembleRows dfMeas5 dfMeas5.rows.length).take 2 ∧
    (get_data ⟨dfAttr, dfMeas5, dfAttr⟩ (some ["M1"]) none none).1 =
      Except.ok ⟨assembleRows dfMeas5 TABLE_ROW_LIMIT, build_avg_time_series dfMeas5⟩ := by
  have h := assemble_rowLimit_spec dfMeas5 2
  refine ⟨h.1, h.2.1, ?_⟩
  have h400 := (assemble_rowLimit_spec dfMeas5 TABLE_ROW_LIMIT).2.2
  exact h400 ⟨dfAttr, dfMeas5, dfAttr⟩ (some ["M1"]) none none
    ⟨dfAttr.cols, [[.str "M1", .str "P1", .str "T1"]]⟩ rfl rfl (by rfl)
